import Mathlib

/-
Verification of the sun-angles daylight calculation against its design
specification.

The resolver (src/sun_angles/calculate_daylight.py) is embedded faithfully.
The two leaf components it imports (SHA_deg_from_DOY_lat, daylight_from_SHA)
and the external timestamp parser (dateutil.parser / pandas Timestamp) are
not under src/, so they are modelled from the specification, as marked on
each definition.
-/

/-- A calendar date, as produced by the external timestamp parser. -/
structure CalDate where
  year : Nat
  month : Nat
  day : Nat
deriving DecidableEq, Repr

/-- Gregorian leap-year rule, used by the ordinal-day computation. -/
def isLeapYear (y : Nat) : Bool :=
  (y % 4 == 0 && y % 100 != 0) || (y % 400 == 0)

/-- Number of days in a month (1..12) of a (leap or common) year. -/
def daysInMonth (leap : Bool) (m : Nat) : Nat :=
  if m = 2 then (if leap then 29 else 28)
  else if m = 4 ∨ m = 6 ∨ m = 9 ∨ m = 11 then 30
  else 31

/-- Modelled from the spec: the external collaborator operation
ordinal_day(datetime) -> integer in 1..366 (pandas Timestamp.dayofyear):
the ordinal day of the date within its calendar year. -/
def dayofyear (d : CalDate) : Nat :=
  (List.range (d.month - 1)).foldl
    (fun acc i => acc + daysInMonth (isLeapYear d.year) (i + 1)) 0 + d.day

/-- Split a character list on the dash character. -/
def splitOnDash : List Char → List (List Char)
  | [] => [[]]
  | c :: cs =>
    let rest := splitOnDash cs
    if c = '-' then [] :: rest
    else
      match rest with
      | [] => [[c]]
      | r :: rs => (c :: r) :: rs

/-- The numeric value of a decimal digit character, if it is one. -/
def digitVal (c : Char) : Option Nat :=
  if c.isDigit then some (c.toNat - 48) else none

/-- Decimal reading of a nonempty all-digit character list. -/
def digitsToNat (cs : List Char) : Option Nat :=
  if cs = [] then none
  else cs.foldl (fun acc c => do
    let a ← acc
    let d ← digitVal c
    pure (10 * a + d)) (some 0)

/-- Modelled from the spec: the external timestamp parser
(parse(value : string) -> datetime, dateutil.parser.parse), restricted to
the ISO YYYY-MM-DD form the spec exercises; a string that does not denote
a valid calendar date fails to parse. -/
def parseDate (s : String) : Option CalDate :=
  match (splitOnDash s.data).map digitsToNat with
  | [some y, some m, some d] =>
    if 1 ≤ m ∧ m ≤ 12 ∧ 1 ≤ d ∧ d ≤ daysInMonth (isLeapYear y) m then
      some ⟨y, m, d⟩
    else none
  | _ => none

/-- Error taxonomy of the resolver pipeline: MissingInput and
UnparsableTimestamp from the spec, plus the shape failure of the
elementwise container abstraction. -/
inductive SunError where
  | missingInput
  | unparsableTimestamp
  | broadcastError
deriving DecidableEq, Repr

/-- A Python runtime value flowing through the resolver: a numeric scalar,
a plain Python list of numbers, or a numpy ndarray of numbers (the
elementwise container; a Raster behaves the same way). -/
inductive PyValue where
  | scalar : ℝ → PyValue
  | pylist : List ℝ → PyValue
  | ndarray : List ℝ → PyValue

/-- A single element of a time_UTC argument: a raw string for the parser,
or an already structured datetime carrying its calendar date. -/
inductive TimeVal where
  | str : String → TimeVal
  | dt : CalDate → TimeVal

/-- The time_UTC argument shape: a single value, a Python list of values,
or a numpy array of values (the latter two are treated alike by the
resolver's isinstance(time_UTC, (list, np.ndarray)) test). -/
inductive TimeArg where
  | single : TimeVal → TimeArg
  | tlist : List TimeVal → TimeArg
  | tarray : List TimeVal → TimeArg

/-- A geometry descriptor: an opaque object exposing a latitude value
(geometry.lat), read by the resolver when lat is not supplied. -/
structure Geometry where
  lat : PyValue

/-- View of a PyValue as the elementwise abstraction: either one scalar or
a list of elements (numpy coerces plain lists to arrays elementwise). -/
def toElems : PyValue → ℝ ⊕ List ℝ
  | .scalar x => .inl x
  | .pylist xs => .inr xs
  | .ndarray xs => .inr xs

/-- Elementwise binary broadcast of the container abstraction: scalars
combine pointwise with containers; two containers must share a length. -/
def broadcast2 (f : ℝ → ℝ → ℝ) (a b : PyValue) : Except SunError PyValue :=
  match toElems a, toElems b with
  | .inl x, .inl y => .ok (.scalar (f x y))
  | .inl x, .inr ys => .ok (.ndarray (ys.map (fun y => f x y)))
  | .inr xs, .inl y => .ok (.ndarray (xs.map (fun x => f x y)))
  | .inr xs, .inr ys =>
    if xs.length = ys.length then .ok (.ndarray (List.zipWith f xs ys))
    else .error .broadcastError

/-- Modelled from the spec: the Declination/SHA Engine
SHA_deg_from_DOY_lat (its source file is imported by the resolver but not
under src/). Solar declination by the seasonal sinusoid
23.45 * sin(360/365 * (day - 81)) in degrees, cos of the hour angle
-tan(lat) * tan(declination), clamped to [-1, 1] before the inverse
cosine, and the sunrise hour angle returned in degrees. -/
noncomputable def SHA_deg_from_DOY_lat (day_of_year lat : ℝ) : ℝ :=
  let declination := 23.45 * Real.sin (2 * Real.pi / 365 * (day_of_year - 81))
  let cosSHA := -Real.tan (lat * Real.pi / 180) *
    Real.tan (declination * Real.pi / 180)
  Real.arccos (max (-1) (min 1 cosSHA)) * 180 / Real.pi

/-- Modelled from the spec: the Daylight Converter daylight_from_SHA (its
source file is imported by the resolver but not under src/):
hours = (2 / 15) * SHA_deg, elementwise over containers. -/
noncomputable def daylight_from_SHA : PyValue → PyValue
  | .scalar x => .scalar (2 / 15 * x)
  | .pylist xs => .ndarray (xs.map (fun x => 2 / 15 * x))
  | .ndarray xs => .ndarray (xs.map (fun x => 2 / 15 * x))

/-- The engine call as the resolver performs it, on possibly-absent
arguments. Modelled from the spec for the absent case: the spec's Input
Resolver fails with MissingInput when latitude or day-of-year cannot be
resolved and SHA_deg is absent. -/
noncomputable def SHA_engine :
    Option PyValue → Option PyValue → Except SunError PyValue
  | some d, some l => broadcast2 SHA_deg_from_DOY_lat d l
  | _, _ => .error .missingInput

/-- The resolver's to_doy helper: a string is first parsed (failure is the
UnparsableTimestamp error), then the ordinal day within the calendar year
is taken; a structured datetime goes straight to the ordinal day. -/
def to_doy : TimeVal → Except SunError Nat
  | .dt d => .ok (dayofyear d)
  | .str s =>
    match parseDate s with
    | some d => .ok (dayofyear d)
    | none => .error .unparsableTimestamp

/-- Day-of-year derivation from time_UTC: a list or array of timestamps
produces an elementwise ndarray of day-of-year values, a single timestamp
produces a scalar. -/
def doy_from_time : TimeArg → Except SunError PyValue
  | .single v => (to_doy v).map (fun n : Nat => .scalar (n : ℝ))
  | .tlist vs =>
    (vs.mapM to_doy).map (fun ns => .ndarray (ns.map (fun n : Nat => (n : ℝ))))
  | .tarray vs =>
    (vs.mapM to_doy).map (fun ns => .ndarray (ns.map (fun n : Nat => (n : ℝ))))

/-- Latitude resolution: a supplied lat is used as is; otherwise the
geometry descriptor's lat attribute is read when a geometry is present. -/
def resolve_lat (lat : Option PyValue) (geometry : Option Geometry) :
    Option PyValue :=
  match lat, geometry with
  | none, some g => some g.lat
  | l, _ => l

/-- Day-of-year resolution: a supplied day_of_year is used as is; otherwise
it is derived from time_UTC when one is present. -/
def resolve_doy (day_of_year : Option PyValue) (time_UTC : Option TimeArg) :
    Except SunError (Option PyValue) :=
  match day_of_year, time_UTC with
  | none, some t => (doy_from_time t).map some
  | d, _ => .ok d

/-- The resolver's list normalization: a plain Python list of day-of-year
values becomes a numpy ndarray; scalars and ndarrays pass unchanged. -/
def normalize_doy : PyValue → PyValue
  | .pylist xs => .ndarray xs
  | v => v

/-- Tail of the pipeline once day-of-year and latitude are resolved:
normalize the day-of-year, invoke the engine, convert SHA to hours. -/
noncomputable def finish_daylight (doy latv : Option PyValue) :
    Except SunError PyValue :=
  (SHA_engine (doy.map normalize_doy) latv).map daylight_from_SHA

/-- The resolver calculate_daylight from src/sun_angles/calculate_daylight.py:
if SHA_deg is supplied it goes straight to the Daylight Converter;
otherwise latitude is resolved from lat or geometry, day-of-year from
day_of_year or time_UTC, lists are normalized, and the engine runs
followed by the converter. -/
noncomputable def calculate_daylight (day_of_year lat SHA_deg : Option PyValue)
    (time_UTC : Option TimeArg) (geometry : Option Geometry) :
    Except SunError PyValue :=
  match SHA_deg with
  | some sha => .ok (daylight_from_SHA sha)
  | none =>
    (resolve_doy day_of_year time_UTC).bind fun doy =>
      finish_daylight doy (resolve_lat lat geometry)

/-- A time_UTC argument that resolves without a parse failure (absent, or
every contained timestamp parses). -/
def TimeParses : Option TimeArg → Prop
  | none => True
  | some t => ∃ v, doy_from_time t = .ok v

/-- C2: with SHA_deg supplied, calculate_daylight returns exactly
daylight_from_SHA of it — (2/15) * SHA_deg hours on a scalar — for every
choice of the other arguments, so day_of_year, lat, time_UTC and geometry
are all ignored, no timestamp is parsed and the engine is not invoked. -/
theorem C2_sha_shortcircuit :
    (∀ (sha : PyValue) (d l : Option PyValue) (t : Option TimeArg)
      (g : Option Geometry),
      calculate_daylight d l (some sha) t g = .ok (daylight_from_SHA sha))
    ∧ (∀ x : ℝ, daylight_from_SHA (.scalar x) = .scalar (2 / 15 * x)) :=
  ⟨fun _ _ _ _ _ => rfl, fun _ => rfl⟩

/-- C10: when day_of_year is supplied, time_UTC is never parsed: two calls
differing only in time_UTC (even an unparsable one) give identical
results. -/
theorem C10_doy_shadows_time (d : PyValue) (l : Option PyValue)
    (t t' : Option TimeArg) (g : Option Geometry) :
    calculate_daylight (some d) l none t g =
      calculate_daylight (some d) l none t' g :=
  rfl

/-- C1 counterexample: with SHA_deg, day_of_year, lat and geometry all
absent but an unparsable time_UTC supplied, calculate_daylight raises
UnparsableTimestamp at the parsing step, not MissingInput, although
neither lat nor geometry was supplied. -/
theorem C1_counterexample :
    calculate_daylight none none none (some (.single (.str "not-a-date"))) none
        = .error .unparsableTimestamp
      ∧ calculate_daylight none none none
          (some (.single (.str "not-a-date"))) none
        ≠ .error .missingInput := by
  refine ⟨rfl, fun h => ?_⟩
  exact SunError.noConfusion (Except.error.inj h)

/-- C1 (amended): with SHA_deg absent, calculate_daylight fails with
MissingInput whenever neither lat nor geometry is supplied and any
supplied time_UTC parses (timestamp parsing happens before the engine, so
an unparsable time_UTC raises UnparsableTimestamp first), and whenever
day_of_year and time_UTC are both absent; in particular the call with no
arguments at all fails with MissingInput. -/
theorem C1_missing_input (d l : Option PyValue) (t : Option TimeArg)
    (g : Option Geometry)
    (h : (l = none ∧ g = none ∧ (d = none → TimeParses t))
      ∨ (d = none ∧ t = none)) :
    calculate_daylight d l none t g = .error .missingInput := by
  rcases h with ⟨hl, hg, hd⟩ | ⟨hd, ht⟩
  · subst hl; subst hg
    cases d with
    | some dv => rfl
    | none =>
      have hp := hd rfl
      cases t with
      | none => rfl
      | some ta =>
        obtain ⟨v, hv⟩ := hp
        have e : calculate_daylight none none none (some ta) none
            = ((doy_from_time ta).map some).bind
                (fun doy => finish_daylight doy none) := rfl
        rw [e, hv]
        rfl
  · subst hd; subst ht
    rfl

/-- C1 witness: calculate_daylight with no arguments at all fails with
MissingInput. -/
theorem C1_missing_input_witness :
    calculate_daylight none none none none none = .error .missingInput :=
  C1_missing_input none none none none (Or.inr ⟨rfl, rfl⟩)

/-- C3: day-of-year resolution from time_UTC: a structured datetime and a
parsable string each give the ordinal day within the calendar year; a
single time_UTC behaves as a scalar day_of_year, a list or array of
timestamps behaves as an elementwise ndarray of day-of-year values; and a
supplied day_of_year always takes precedence over time_UTC. -/
theorem C3_doy_resolution :
    (∀ dd : CalDate, to_doy (.dt dd) = .ok (dayofyear dd))
    ∧ (∀ (s : String) (dd : CalDate), parseDate s = some dd →
        to_doy (.str s) = .ok (dayofyear dd))
    ∧ (∀ (v : TimeVal) (n : Nat) (l : Option PyValue) (g : Option Geometry),
        to_doy v = .ok n →
        calculate_daylight none l none (some (.single v)) g
          = calculate_daylight (some (.scalar (n : ℝ))) l none none g)
    ∧ (∀ (vs : List TimeVal) (ns : List Nat) (l : Option PyValue)
        (g : Option Geometry), vs.mapM to_doy = .ok ns →
        calculate_daylight none l none (some (.tlist vs)) g
          = calculate_daylight
              (some (.ndarray (ns.map fun n : Nat => (n : ℝ)))) l none none g)
    ∧ (∀ (vs : List TimeVal) (ns : List Nat) (l : Option PyValue)
        (g : Option Geometry), vs.mapM to_doy = .ok ns →
        calculate_daylight none l none (some (.tarray vs)) g
          = calculate_daylight
              (some (.ndarray (ns.map fun n : Nat => (n : ℝ)))) l none none g)
    ∧ (∀ (d : PyValue) (l : Option PyValue) (t : TimeArg)
        (g : Option Geometry),
        calculate_daylight (some d) l none (some t) g
          = calculate_daylight (some d) l none none g) := by
  refine ⟨fun dd => rfl, fun s dd h => ?_, fun v n l g h => ?_,
    fun vs ns l g h => ?_, fun vs ns l g h => ?_, fun d l t g => rfl⟩
  · simp only [to_doy, h]
  · have e : calculate_daylight none l none (some (.single v)) g
        = (((to_doy v).map fun k : Nat => PyValue.scalar (k : ℝ)).map some).bind
            (fun doy => finish_daylight doy (resolve_lat l g)) := rfl
    rw [e, h]
    rfl
  · have e : calculate_daylight none l none (some (.tlist vs)) g
        = (((vs.mapM to_doy).map fun ks =>
              PyValue.ndarray (ks.map fun n : Nat => (n : ℝ))).map some).bind
            (fun doy => finish_daylight doy (resolve_lat l g)) := rfl
    rw [e, h]
    rfl
  · have e : calculate_daylight none l none (some (.tarray vs)) g
        = (((vs.mapM to_doy).map fun ks =>
              PyValue.ndarray (ks.map fun n : Nat => (n : ℝ))).map some).bind
            (fun doy => finish_daylight doy (resolve_lat l g)) := rfl
    rw [e, h]
    rfl

/-- C3 witness: the string 2025-06-21 parses to ordinal day 172 and the
corresponding time_UTC call equals the day_of_year=172 call. -/
theorem C3_doy_resolution_witness :
    to_doy (.str "2025-06-21") = .ok 172
    ∧ calculate_daylight none (some (.scalar 34)) none
        (some (.single (.str "2025-06-21"))) none
      = calculate_daylight (some (.scalar ((172 : Nat) : ℝ)))
          (some (.scalar 34)) none none none :=
  ⟨rfl, C3_doy_resolution.2.2.1 (.str "2025-06-21") 172
    (some (.scalar 34)) none rfl⟩

/-- C4: the call with time_UTC 2025-06-21 and lat 34 equals the call with
day_of_year 172 and lat 34, because the timestamp parses to ordinal day
172 and both calls reach the engine with identical arguments. -/
theorem C4_timestamp_matches_doy :
    to_doy (.str "2025-06-21") = .ok 172
    ∧ calculate_daylight none (some (.scalar 34)) none
        (some (.single (.str "2025-06-21"))) none
      = calculate_daylight (some (.scalar 172)) (some (.scalar 34))
          none none none := by
  refine ⟨rfl, ?_⟩
  have h : ((172 : Nat) : ℝ) = (172 : ℝ) := by norm_num
  have e1 : calculate_daylight none (some (.scalar 34)) none
      (some (.single (.str "2025-06-21"))) none
      = calculate_daylight (some (.scalar ((172 : Nat) : ℝ)))
          (some (.scalar 34)) none none none := rfl
  rw [e1, h]

/-- C5: a supplied lat takes precedence over geometry (the result never
depends on geometry when lat is given), and when lat is absent the
latitude used is exactly the geometry descriptor's lat attribute; the
embedding is a pure function, so geometry is only read, never mutated. -/
theorem C5_lat_over_geometry :
    (∀ (d : Option PyValue) (lv : PyValue) (t : Option TimeArg)
      (g : Geometry),
      calculate_daylight d (some lv) none t (some g)
        = calculate_daylight d (some lv) none t none)
    ∧ (∀ (d : Option PyValue) (t : Option TimeArg) (g : Geometry),
      calculate_daylight d none none t (some g)
        = calculate_daylight d (some g.lat) none t none) :=
  ⟨fun _ _ _ _ => rfl, fun _ _ _ => rfl⟩

/-- C6: before the engine runs, a day_of_year supplied as a plain list is
normalized to the ndarray of the same elements, while scalar and ndarray
day_of_year values pass through the normalization unchanged. -/
theorem C6_list_normalization :
    (∀ xs : List ℝ, normalize_doy (.pylist xs) = .ndarray xs)
    ∧ (∀ x : ℝ, normalize_doy (.scalar x) = .scalar x)
    ∧ (∀ xs : List ℝ, normalize_doy (.ndarray xs) = .ndarray xs)
    ∧ (∀ (xs : List ℝ) (l : Option PyValue) (t : Option TimeArg)
        (g : Option Geometry),
        calculate_daylight (some (.pylist xs)) l none t g
          = calculate_daylight (some (.ndarray xs)) l none t g) :=
  ⟨fun _ => rfl, fun _ => rfl, fun _ => rfl, fun _ _ _ _ => rfl⟩

/-- C7: with SHA_deg and day_of_year absent, a time_UTC string that does
not parse makes calculate_daylight fail with exactly the
UnparsableTimestamp error: no daylight value is returned and the error is
not replaced by any other. -/
theorem C7_unparsable_timestamp (s : String) (l : Option PyValue)
    (g : Option Geometry) (h : parseDate s = none) :
    calculate_daylight none l none (some (.single (.str s))) g
      = .error .unparsableTimestamp := by
  have e : to_doy (.str s) = .error .unparsableTimestamp := by
    simp only [to_doy, h]
  have e2 : calculate_daylight none l none (some (.single (.str s))) g
      = (((to_doy (.str s)).map fun k : Nat => PyValue.scalar (k : ℝ)).map
          some).bind
          (fun doy => finish_daylight doy (resolve_lat l g)) := rfl
  rw [e2, e]
  rfl

/-- C7 witness: the string garbage does not parse and the call supplying
it as time_UTC fails with UnparsableTimestamp. -/
theorem C7_unparsable_timestamp_witness :
    parseDate "garbage" = none
    ∧ calculate_daylight none (some (.scalar 34)) none
        (some (.single (.str "garbage"))) none
      = .error .unparsableTimestamp :=
  ⟨rfl, C7_unparsable_timestamp "garbage" (some (.scalar 34)) none rfl⟩

/-- C8: for every scalar latitude, the call with the two-element time_UTC
list of 2025-06-21 and 2025-12-21 returns a two-element ndarray whose
first element is exactly the scalar result for 2025-06-21 and whose second
element is exactly the scalar result for 2025-12-21. -/
theorem C8_elementwise_consistency (L : ℝ) :
    ∃ a b : ℝ,
      calculate_daylight none (some (.scalar L)) none
        (some (.tlist [.str "2025-06-21", .str "2025-12-21"])) none
        = .ok (.ndarray [a, b])
      ∧ calculate_daylight none (some (.scalar L)) none
          (some (.single (.str "2025-06-21"))) none = .ok (.scalar a)
      ∧ calculate_daylight none (some (.scalar L)) none
          (some (.single (.str "2025-12-21"))) none = .ok (.scalar b) :=
  ⟨2 / 15 * SHA_deg_from_DOY_lat ((172 : Nat) : ℝ) L,
   2 / 15 * SHA_deg_from_DOY_lat ((355 : Nat) : ℝ) L,
   rfl, rfl, rfl⟩

/-- C9: for every latitude in -66..66 and day_of_year in 1..366, the
daylight hours computed by calculate_daylight lie in 0..24: the engine
clamps the cosine of the hour angle to -1..1 before the inverse cosine,
so the sunrise hour angle is in 0..180 degrees. -/
theorem C9_daylight_bounds (D L : ℝ) (hD1 : 1 ≤ D) (hD2 : D ≤ 366)
    (hL1 : -66 ≤ L) (hL2 : L ≤ 66) :
    ∃ r : ℝ,
      calculate_daylight (some (.scalar D)) (some (.scalar L)) none none none
        = .ok (.scalar r) ∧ 0 ≤ r ∧ r ≤ 24 := by
  refine ⟨2 / 15 * SHA_deg_from_DOY_lat D L, rfl, ?_, ?_⟩
  · have h1 : 0 ≤ SHA_deg_from_DOY_lat D L := by
      unfold SHA_deg_from_DOY_lat
      have := Real.arccos_nonneg (max (-1) (min 1
        (-Real.tan (L * Real.pi / 180) *
          Real.tan (23.45 * Real.sin (2 * Real.pi / 365 * (D - 81)) *
            Real.pi / 180))))
      positivity
    nlinarith
  · have hpi := Real.pi_pos
    have h2 : SHA_deg_from_DOY_lat D L ≤ 180 := by
      unfold SHA_deg_from_DOY_lat
      rw [div_le_iff₀ hpi]
      have := Real.arccos_le_pi (max (-1) (min 1
        (-Real.tan (L * Real.pi / 180) *
          Real.tan (23.45 * Real.sin (2 * Real.pi / 365 * (D - 81)) *
            Real.pi / 180))))
      nlinarith
    nlinarith [h2]

/-- C9 witness: at day_of_year 172 and latitude 34, the hypotheses hold
and the daylight result is a scalar in 0..24. -/
theorem C9_daylight_bounds_witness :
    (1 : ℝ) ≤ 172 ∧ (172 : ℝ) ≤ 366 ∧ (-66 : ℝ) ≤ 34 ∧ (34 : ℝ) ≤ 66
    ∧ ∃ r : ℝ,
      calculate_daylight (some (.scalar 172)) (some (.scalar 34))
          none none none
        = .ok (.scalar r) ∧ 0 ≤ r ∧ r ≤ 24 :=
  ⟨by norm_num, by norm_num, by norm_num, by norm_num,
   C9_daylight_bounds 172 34 (by norm_num) (by norm_num) (by norm_num)
     (by norm_num)⟩
